import Mathlib

/-!
Shallow embedding of the collision/damage core of the Medieval Siege
Simulator (src/js/managers/CollisionManager.js, DamageHandler.js,
CollisionDetector.js, physics.js).  JavaScript numbers are modelled as
exact rationals (ℚ); `undefined` fields are modelled with `Option`.
-/

namespace Siege

/-- Direct-hit target wrapper, as used by `CollisionManager`:
`type` is the duck-typed `userData.type` string; `health`/`maxHealth`
live on `mesh.userData` and may be absent (`none`). -/
structure DirectTarget where
  type : String
  health : Option ℚ
  maxHealth : Option ℚ
deriving DecidableEq, Repr

/-- JavaScript truthiness test `!target.mesh.userData.health` used by
`CollisionManager.applyDamage`: absent (`undefined`) and `0` are falsy. -/
def healthFalsy : Option ℚ → Bool
  | none => true
  | some h => h == 0

/-- `CollisionManager.getBaseHealth`: per-type base health for direct hits
(`wall/tower/siegeTower = 200`, `barrel = 100`, default `300`). -/
def getBaseHealth (targetType : String) : ℚ :=
  if targetType = "wall" then 200
  else if targetType = "tower" then 200
  else if targetType = "siegeTower" then 200
  else if targetType = "barrel" then 100
  else 300

/-- `CollisionManager.getTargetResistance`: the resistance lookup
`resistances[target.type] || 0` over the table
`wall = 0.3, tower = 0.4, siegeTower = 0.2, barrel = 0`. -/
def getTargetResistance (targetType : String) : ℚ :=
  if targetType = "wall" then 3/10
  else if targetType = "tower" then 2/5
  else if targetType = "siegeTower" then 1/5
  else 0

/-- `CollisionManager.initializeTargetHealth`: sets both `health` and
`maxHealth` to the type's base value. -/
def initializeTargetHealth (t : DirectTarget) : DirectTarget :=
  { t with health := some (getBaseHealth t.type),
           maxHealth := some (getBaseHealth t.type) }

/-- `CollisionManager.applyDamage`: lazily initializes health when the
current value is falsy, then subtracts resistance-adjusted damage and
clamps at 0.  Returns the updated target and the `actualDamage` dealt. -/
def applyDamage (t : DirectTarget) (damage : ℚ) : DirectTarget × ℚ :=
  let t1 := if healthFalsy t.health then initializeTargetHealth t else t
  let resistance := getTargetResistance t1.type
  let actualDamage := damage * (1 - resistance)
  ({ t1 with health := some (max 0 (t1.health.getD 0 - actualDamage)) },
   actualDamage)

/-- Target wrapper as seen by `DamageHandler.explosionDamage` (built by
`CollisionDetector.getCollisionTargets`): `hasMesh` models the
`!targetWrapper || !targetWrapper.mesh || !targetWrapper.mesh.position`
validity guard; `isDragging` is `mesh.userData.isDragging`. -/
structure ExpTarget where
  type : String
  hasMesh : Bool
  isDragging : Bool
  health : Option ℚ
  maxHealth : Option ℚ
deriving DecidableEq, Repr

/-- `DamageHandler.getBaseHealthForExplosion`: base health used for lazy
initialization during explosion damage (`wall/tower/siegeTower = 200`,
`barrel = 50`, default `100`). -/
def getBaseHealthForExplosion (targetType : String) : ℚ :=
  if targetType = "wall" then 200
  else if targetType = "tower" then 200
  else if targetType = "siegeTower" then 200
  else if targetType = "barrel" then 50
  else 100

/-- One iteration of the `targets.forEach` body of
`DamageHandler.explosionDamage`, for a target whose Euclidean distance to
the explosion center is `d`.  Returns the updated target and the
`destroyed` verdict pushed for it.  Mirrors the source: invalid wrappers
and out-of-radius or `ground` targets are untouched with verdict `false`;
otherwise health is lazily initialized when `undefined`, `maxHealth` is
repaired when only it is `undefined`, then
`floor(maxDamage * (1 - d/radius))` is subtracted and clamped at 0, and
the verdict is `health ≤ 0`. -/
def explosionDamageTarget (d radius maxDamage : ℚ) (t : ExpTarget) :
    ExpTarget × Bool :=
  if ¬ t.hasMesh = true then (t, false)
  else if d < radius then
    if t.type ≠ "ground" then
      let t1 :=
        if t.health = none then
          { t with maxHealth := some (getBaseHealthForExplosion t.type),
                   health := some (getBaseHealthForExplosion t.type) }
        else t
      let repairedMax : ℚ :=
        max (t1.health.getD 0) (getBaseHealthForExplosion t1.type)
      let t2 :=
        if t1.maxHealth = none ∧ t1.health ≠ none then
          { t1 with maxHealth := some repairedMax }
        else t1
      let damage : ℤ := ⌊maxDamage * (1 - d / radius)⌋
      let newHealth : ℚ := max 0 (t2.health.getD 0 - (damage : ℚ))
      ({ t2 with health := some newHealth }, decide (newHealth ≤ 0))
    else (t, false)
  else (t, false)

/-- Barrel state relevant to explosion triggering: `inScene` models
`mesh.parent === scene` membership, the rest are `userData` flags. -/
structure Barrel where
  type : String
  inScene : Bool
  isDragging : Bool
  isExploding : Bool
  explosive : Bool
deriving DecidableEq, Repr

/-- `CollisionManager.triggerBarrelExplosion` guard and state change: it
returns early when the mesh is absent from the scene or is being dragged,
otherwise it sets `isExploding` and `explosive`, runs the chain reaction
and removes the mesh from the scene.  The returned `Bool` is `true` iff
the detonation proceeded.  Note: the guard does NOT consult
`isExploding`. -/
def triggerBarrelExplosion (b : Barrel) : Barrel × Bool :=
  if ¬ b.inScene = true ∨ b.isDragging = true then (b, false)
  else ({ b with isExploding := true, explosive := true, inScene := false },
        true)

/-- The per-child condition of the `scene.children.forEach` scan in
`CollisionManager.handleChainReaction`: a child at distance `d` from the
detonation is scheduled iff it is a barrel, is not the detonating mesh
itself (`isSource`), is not already exploding, is still parented to the
scene, and lies strictly within the chain-reaction radius 8. -/
def chainScanSchedules (b : Barrel) (isSource : Bool) (d : ℚ) : Bool :=
  b.type == "barrel" && !isSource && !b.isExploding && b.inScene
    && decide (d < 8)

/-- The state change applied to a scheduled cascade child:
`child.userData.isExploding = true`. -/
def chainScanMark (b : Barrel) : Barrel :=
  { b with isExploding := true }

/-- The cascade delay `100 + Math.random() * 200` for a random draw `u`. -/
def chainDelay (u : ℚ) : ℚ :=
  100 + u * 200

/-- Target entry as filtered by the per-projectile loop of
`CollisionManager.checkCollisions`. -/
structure CTarget where
  id : ℕ
  hasMesh : Bool
  isDragging : Bool
deriving DecidableEq, Repr

/-- The target loop of `CollisionManager.checkCollisions` for one
projectile: skip entries without a mesh, skip entries being dragged, and
hand the first remaining colliding target to `handleTargetCollision`
(after which the loop returns).  `collides` abstracts
`CollisionDetector.checkProjectileTargetCollision`. -/
def selectCollisionTarget (collides : CTarget → Bool) :
    List CTarget → Option CTarget
  | [] => none
  | t :: ts =>
    if t.hasMesh && !t.isDragging && collides t then some t
    else selectCollisionTarget collides ts

/-- The velocity-scaled projectile radius of
`CollisionDetector.checkProjectileTargetCollision`:
`baseRadius * (velocity ? min(|velocity| * 0.1, 1.5) : 1.0)`, where
`speed = some s` models a present velocity vector of length `s`. -/
def projectileEffectiveRadius (baseRadius : ℚ) (speed : Option ℚ) : ℚ :=
  baseRadius *
    (match speed with
     | some s => min (s * (1/10)) (3/2)
     | none => 1)

/-- Modelled from the spec for comparison with the source (refinement
check for the radius-scaling claim): the spec's scaling formula
`base × clamp(1 + 0.1×|v|, 1, 1.5)`. -/
def specScaledRadius (baseRadius s : ℚ) : ℚ :=
  baseRadius * min (max (1 + s * (1/10)) 1) (3/2)

/-- `CollisionManager.checkGroundCollision` threshold:
`max(projectileRadius * 1.5, 0.5)`. -/
def groundThreshold (radius : ℚ) : ℚ :=
  max (radius * (3/2)) (1/2)

/-- `isFinalBounce = bounceCount >= 3` in
`CollisionManager.checkGroundCollision`. -/
def isFinalBounce (bounceCount : ℕ) : Bool :=
  decide (3 ≤ bounceCount)

/-- The impact force computed by `CollisionManager.handleGroundCollision`:
`impactSpeed = collisionData.force` is the raw projectile speed `s`
passed by `checkGroundCollision`, and
`impactForce = min(impactSpeed * 1.5, 2.0)`. -/
def groundImpactForce (s : ℚ) : ℚ :=
  min (s * (3/2)) 2

/-- Modelled from the spec for comparison with the source (refinement
check for the ground-impact claim): the spec's classification
`clamp(speed/10 × 1.5, 0, 2.0)`. -/
def specGroundForce (s : ℚ) : ℚ :=
  min (max (s * (1/10) * (3/2)) 0) 2

/-- The dust/crater side-effect decisions of
`CollisionManager.handleGroundCollision` at raw speed `s` and finality
flag `final`: effects are gated behind `impactSpeed > 0.3 || final`; dust
fires when `impactForce > 0.8`; a crater fires when
`impactForce > 1.2 || final`.  Returns `(dust, crater)`. -/
def groundEffects (s : ℚ) (final : Bool) : Bool × Bool :=
  if 3/10 < s ∨ final = true then
    (decide (4/5 < groundImpactForce s),
     decide (6/5 < groundImpactForce s) || final)
  else (false, false)

/-- 3D vector over exact rationals. -/
structure Vec3 where
  x : ℚ
  y : ℚ
  z : ℚ
deriving DecidableEq, Repr

/-- Squared Euclidean norm.  The source compares `velocity.length()`
against thresholds; for nonnegative bounds `speed > c ↔ normSq > c²`, so
the embedding uses the square to stay in ℚ. -/
def Vec3.normSq (v : Vec3) : ℚ :=
  v.x ^ 2 + v.y ^ 2 + v.z ^ 2

/-- Projectile state tracked by `PhysicsEngine.update` on
`object.userData` (plus the scene position). -/
structure Projectile where
  pos : Vec3
  vel : Vec3
  gravity : ℚ
  bounces : ℕ
  maxBounces : ℕ
  active : Bool
  hasCollided : Bool
deriving DecidableEq, Repr

/-- Ground-contact outcome of one integration step. -/
inductive GroundEvent where
  | noEvent : GroundEvent
  | bounce : GroundEvent
  | finalStop : GroundEvent
deriving DecidableEq, Repr

/-- `object.userData.maxBounces || 3`, with `0` standing for the falsy
values (`undefined`/`0`). -/
def effMaxBounces (p : Projectile) : ℕ :=
  if p.maxBounces = 0 then 3 else p.maxBounces

/-- One `PhysicsEngine.update` step for a single projectile, with
`deltaTime` already clamped to `≤ 1/30`.  Inactive or already-collided
projectiles are skipped.  Gravity then position integration; on ground
contact (`y ≤ 0.3`): clamp `y`, then either bounce
(`speed > 1.0` and `(!bounces || bounces < maxBounces)`:
`vy = |vy| * 0.5`, horizontal `* 0.7`, `bounces + 1`) or stop
(zero velocity, `active = false`, `hasCollided = true`, terminal
callback `final: true`).  The speed test uses `normSq > 1`, equivalent
to `|v| > 1`. -/
def stepProjectile (dt : ℚ) (p : Projectile) : Projectile × GroundEvent :=
  if ¬ (p.active = true ∧ p.hasCollided = false) then (p, .noEvent)
  else
    let v1 : Vec3 := ⟨p.vel.x, p.vel.y + p.gravity * dt, p.vel.z⟩
    let pos1 : Vec3 :=
      ⟨p.pos.x + v1.x * dt, p.pos.y + v1.y * dt, p.pos.z + v1.z * dt⟩
    if pos1.y ≤ 3/10 then
      let pos2 : Vec3 := ⟨pos1.x, 3/10, pos1.z⟩
      if v1.normSq > 1 ∧ (p.bounces = 0 ∨ p.bounces < effMaxBounces p) then
        ({ p with pos := pos2,
                  vel := ⟨v1.x * (7/10), |v1.y| * (1/2), v1.z * (7/10)⟩,
                  bounces := p.bounces + 1 }, .bounce)
      else
        ({ p with pos := pos2, vel := ⟨0, 0, 0⟩,
                  active := false, hasCollided := true }, .finalStop)
    else ({ p with pos := pos1, vel := v1 }, .noEvent)

/-- A bounding box in the embedding carries the identity of the object it
was computed from and the time of computation — exactly the data
`new THREE.Box3().setFromObject(object)` depends on in the source. -/
abbrev BBox := ℕ × ℕ

/-- `CollisionDetector` bounding-box cache state: the `boundingBoxCache`
map (as an association list keyed by `object.uuid`) and the single global
`lastCacheUpdate` timestamp. -/
structure CacheState where
  entries : List (ℕ × BBox)
  lastCacheUpdate : ℕ
deriving DecidableEq, Repr

/-- `Map.set`: replace or add the entry for `id`. -/
def insertBox (id : ℕ) (b : BBox) (l : List (ℕ × BBox)) :
    List (ℕ × BBox) :=
  (id, b) :: l.filter (fun e => e.1 != id)

/-- `CollisionDetector.getBoundingBox` for object `id` at wall-clock time
`now`: returns the cached box when the entry exists AND less than
`cacheTimeout = 100` ms passed since the last (global) cache write;
otherwise recomputes via `compute`, stores the box and rewrites the
global timestamp. -/
def getBoundingBox (compute : ℕ → ℕ → BBox) (st : CacheState)
    (id now : ℕ) : BBox × CacheState :=
  match List.lookup id st.entries with
  | some box =>
    if now - st.lastCacheUpdate < 100 then (box, st)
    else
      let b := compute id now
      (b, ⟨insertBox id b st.entries, now⟩)
  | none =>
    let b := compute id now
    (b, ⟨insertBox id b st.entries, now⟩)

/-- The honest box computation used as the concrete fixture: the box of
object `id` computed at time `t` is tagged `(id, t)`. -/
def computeAt : ℕ → ℕ → BBox :=
  fun id t => (id, t)

/-- C1: for every target with initialized (truthy) health `h` and every
nonnegative damage, `applyDamage` returns a nonnegative value, leaves
`health = max 0 (h − damage × (1 − resistance))`, and the resistance is
drawn from the table `wall = 0.3, tower = 0.4, siegeTower = 0.2,
barrel = 0`, default `0`, which always lies in `[0, 1]`. -/
theorem C1_applyDamage_correct (t : DirectTarget) (damage h : ℚ)
    (hdmg : 0 ≤ damage) (hh : t.health = some h) (hnz : h ≠ 0) :
    0 ≤ getTargetResistance t.type ∧ getTargetResistance t.type ≤ 1 ∧
    0 ≤ (applyDamage t damage).2 ∧
    (applyDamage t damage).1.health =
      some (max 0 (h - damage * (1 - getTargetResistance t.type))) ∧
    getTargetResistance "wall" = 3/10 ∧
    getTargetResistance "tower" = 2/5 ∧
    getTargetResistance "siegeTower" = 1/5 ∧
    getTargetResistance "barrel" = 0 ∧
    (t.type ≠ "wall" → t.type ≠ "tower" → t.type ≠ "siegeTower" →
      getTargetResistance t.type = 0) := by
  have hres : 0 ≤ getTargetResistance t.type ∧ getTargetResistance t.type ≤ 1 := by
    unfold getTargetResistance
    split_ifs <;> norm_num
  have hfalsy : healthFalsy (some h) = false := by
    simpa [healthFalsy] using hnz
  have happ : applyDamage t damage =
      ({ t with health := some (max 0 (h - damage * (1 - getTargetResistance t.type))) },
       damage * (1 - getTargetResistance t.type)) := by
    simp [applyDamage, hfalsy, hh]
  refine ⟨hres.1, hres.2, ?_, ?_, ?_, ?_, ?_, ?_, ?_⟩
  · rw [happ]
    exact mul_nonneg hdmg (by linarith [hres.2])
  · rw [happ]
  · simp [getTargetResistance]
  · simp [getTargetResistance]
  · simp [getTargetResistance]
  · simp [getTargetResistance]
  · intro h1 h2 h3
    simp [getTargetResistance, h1, h2, h3]

/-- Witness for C1 at a concrete wall target with health 200 hit for
damage 10. -/
theorem C1_applyDamage_correct_witness :
    0 ≤ getTargetResistance "wall" ∧ getTargetResistance "wall" ≤ 1 ∧
    0 ≤ (applyDamage ⟨"wall", some 200, some 200⟩ 10).2 ∧
    (applyDamage ⟨"wall", some 200, some 200⟩ 10).1.health =
      some (max 0 (200 - 10 * (1 - getTargetResistance "wall"))) ∧
    getTargetResistance "wall" = 3/10 ∧
    getTargetResistance "tower" = 2/5 ∧
    getTargetResistance "siegeTower" = 1/5 ∧
    getTargetResistance "barrel" = 0 ∧
    (("wall" : String) ≠ "wall" → ("wall" : String) ≠ "tower" →
      ("wall" : String) ≠ "siegeTower" → getTargetResistance "wall" = 0) :=
  C1_applyDamage_correct ⟨"wall", some 200, some 200⟩ 10 200
    (by norm_num) rfl (by norm_num)

/-- C10: a target whose `health` field is exactly `0` (falsy in JS) is
treated as uninitialized by `applyDamage`: both `health` and `maxHealth`
are reset to the type's base value and the resistance-adjusted damage is
then subtracted from the full base value. -/
theorem C10_applyDamage_reinitializes_zero_health (t : DirectTarget)
    (damage : ℚ) (hh : t.health = some 0) :
    (applyDamage t damage).1.health =
      some (max 0 (getBaseHealth t.type -
        damage * (1 - getTargetResistance t.type))) ∧
    (applyDamage t damage).1.maxHealth = some (getBaseHealth t.type) ∧
    (applyDamage t damage).2 = damage * (1 - getTargetResistance t.type) := by
  have hfalsy : healthFalsy t.health = true := by
    rw [hh]
    simp [healthFalsy]
  refine ⟨?_, ?_, ?_⟩ <;>
    simp [applyDamage, hfalsy, initializeTargetHealth]

/-- Witness for C10: a fully depleted barrel (health 0) hit for damage 30
comes back at `100 − 30 = 70` health with `maxHealth` restored to 100. -/
theorem C10_applyDamage_reinitializes_zero_health_witness :
    (applyDamage ⟨"barrel", some 0, some 100⟩ 30).1.health =
      some (max 0 (getBaseHealth "barrel" -
        30 * (1 - getTargetResistance "barrel"))) ∧
    (applyDamage ⟨"barrel", some 0, some 100⟩ 30).1.maxHealth =
      some (getBaseHealth "barrel") ∧
    (applyDamage ⟨"barrel", some 0, some 100⟩ 30).2 =
      30 * (1 - getTargetResistance "barrel") :=
  C10_applyDamage_reinitializes_zero_health ⟨"barrel", some 0, some 100⟩ 30 rfl

/-- C5: for every valid non-ground target with initialized health `h` at
distance `d < radius` from the explosion center, `explosionDamage`
subtracts exactly `⌊maxDamage × (1 − d/radius)⌋` (clamped at 0) and marks
it destroyed iff the resulting health is `≤ 0`; ground targets are left
untouched; a 100-health barrel at distance 3 from a `radius = 8`,
`maxDamage = 150` explosion ends at health 7, i.e. takes exactly
`⌊150 × (1 − 3/8)⌋ = 93` damage. -/
theorem C5_explosionDamage_correct (t : ExpTarget) (d radius maxDamage h : ℚ)
    (hm : t.hasMesh = true) (hg : t.type ≠ "ground") (hh : t.health = some h)
    (hdr : d < radius) :
    (explosionDamageTarget d radius maxDamage t).1.health =
      some (max 0 (h - (⌊maxDamage * (1 - d / radius)⌋ : ℚ))) ∧
    ((explosionDamageTarget d radius maxDamage t).2 = true ↔
      max 0 (h - (⌊maxDamage * (1 - d / radius)⌋ : ℚ)) ≤ 0) ∧
    (∀ g : ExpTarget, g.type = "ground" →
      explosionDamageTarget d radius maxDamage g = (g, false)) ∧
    (explosionDamageTarget 3 8 150
      ⟨"barrel", true, false, some 100, some 100⟩).1.health = some 7 ∧
    (⌊(150 : ℚ) * (1 - 3 / 8)⌋ : ℤ) = 93 := by
  have hground : ∀ g : ExpTarget, g.type = "ground" →
      explosionDamageTarget d radius maxDamage g = (g, false) := by
    intro g hgt
    unfold explosionDamageTarget
    split_ifs with h1 h2 h3 <;> simp_all
  have hfloor : (⌊(150 : ℚ) * (1 - 3 / 8)⌋ : ℤ) = 93 := by
    rw [Int.floor_eq_iff]
    norm_num
  refine ⟨?_, ?_, hground, ?_, hfloor⟩
  · rcases hmx : t.maxHealth with _ | m <;>
      simp [explosionDamageTarget, hm, hg, hh, hdr, hmx]
  · rcases hmx : t.maxHealth with _ | m <;>
      simp [explosionDamageTarget, hm, hg, hh, hdr, hmx]
  · simp [explosionDamageTarget]
    norm_num

/-- Witness for C5 at the barrel of Scenario B with health 100. -/
theorem C5_explosionDamage_correct_witness :
    (explosionDamageTarget 3 8 150
        ⟨"barrel", true, false, some 100, some 100⟩).1.health =
      some (max 0 (100 - (⌊(150 : ℚ) * (1 - 3 / 8)⌋ : ℚ))) ∧
    ((explosionDamageTarget 3 8 150
        ⟨"barrel", true, false, some 100, some 100⟩).2 = true ↔
      max 0 (100 - (⌊(150 : ℚ) * (1 - 3 / 8)⌋ : ℚ)) ≤ 0) ∧
    explosionDamageTarget 3 8 150 ⟨"ground", true, false, some 100, some 100⟩ =
      (⟨"ground", true, false, some 100, some 100⟩, false) :=
  have main := C5_explosionDamage_correct
    ⟨"barrel", true, false, some 100, some 100⟩ 3 8 150 100
    rfl (by simp) rfl (by norm_num)
  ⟨main.1, main.2.1,
   main.2.2.1 ⟨"ground", true, false, some 100, some 100⟩ rfl⟩

/-- C7 counterexample: the explosion base-health default is 100, not the
§4.3 default of 300 the claim asserts (`"stone"` is a type outside the
four-entry table). -/
theorem C7_counterexample :
    getBaseHealthForExplosion "stone" = 100 ∧
    getBaseHealthForExplosion "stone" ≠ 300 := by
  constructor <;> simp [getBaseHealthForExplosion]

/-- C7 amended: the explosion base-health table is `wall = 200,
tower = 200, siegeTower = 200, barrel = 50`, default `100`; it matches the
direct-hit table on the three structures, while barrel (50 vs 100) and
the default (100 vs 300) both differ from the direct-hit table. -/
theorem C7_explosion_health_table (s : String) (h1 : s ≠ "wall")
    (h2 : s ≠ "tower") (h3 : s ≠ "siegeTower") (h4 : s ≠ "barrel") :
    getBaseHealthForExplosion "wall" = 200 ∧
    getBaseHealthForExplosion "tower" = 200 ∧
    getBaseHealthForExplosion "siegeTower" = 200 ∧
    getBaseHealthForExplosion "barrel" = 50 ∧
    getBaseHealthForExplosion s = 100 ∧
    getBaseHealth "wall" = 200 ∧
    getBaseHealth "tower" = 200 ∧
    getBaseHealth "siegeTower" = 200 ∧
    getBaseHealth "barrel" = 100 ∧
    getBaseHealth s = 300 := by
  simp [getBaseHealthForExplosion, getBaseHealth, h1, h2, h3, h4]

/-- Witness for the amended C7 at the out-of-table type `"stone"`. -/
theorem C7_explosion_health_table_witness :
    getBaseHealthForExplosion "wall" = 200 ∧
    getBaseHealthForExplosion "tower" = 200 ∧
    getBaseHealthForExplosion "siegeTower" = 200 ∧
    getBaseHealthForExplosion "barrel" = 50 ∧
    getBaseHealthForExplosion "stone" = 100 ∧
    getBaseHealth "wall" = 200 ∧
    getBaseHealth "tower" = 200 ∧
    getBaseHealth "siegeTower" = 200 ∧
    getBaseHealth "barrel" = 100 ∧
    getBaseHealth "stone" = 300 :=
  C7_explosion_health_table "stone" (by simp) (by simp) (by simp) (by simp)

/-- C2 counterexample: the direct-hit path
(`handleImpactEffects` → `triggerBarrelExplosion`) does not check
`isExploding`: a barrel already flagged `isExploding = true` (and still
in the scene, not dragged) is detonated a second time — the guard only
consults scene membership and `isDragging`.  (The checking variant
`handleBarrelImpact` is never called.) -/
theorem C2_counterexample :
    (⟨"barrel", true, false, true, true⟩ : Barrel).isExploding = true ∧
    (triggerBarrelExplosion ⟨"barrel", true, false, true, true⟩).2 = true := by
  constructor
  · rfl
  · simp [triggerBarrelExplosion]

/-- C2 amended: only the chain-reaction scan path checks `isExploding`
before scheduling — it never re-schedules an already-exploding barrel and
draws its delay as `100 + u·200 ∈ [100, 300)` ms; the scan and the direct
path both set the flag, but the direct path (`triggerBarrelExplosion`)
does not check it and will re-trigger a flagged barrel. -/
theorem C2_chain_scan_guard (b : Barrel) (u d : ℚ)
    (hexp : b.isExploding = true) (hu0 : 0 ≤ u) (hu1 : u < 1) :
    chainScanSchedules b false d = false ∧
    chainScanSchedules b true d = false ∧
    (∀ c : Barrel, (chainScanMark c).isExploding = true) ∧
    100 ≤ chainDelay u ∧ chainDelay u < 300 ∧
    (b.inScene = true → b.isDragging = false →
      (triggerBarrelExplosion b).1.isExploding = true ∧
      (triggerBarrelExplosion b).2 = true) := by
  refine ⟨?_, ?_, ?_, ?_, ?_, ?_⟩
  · simp [chainScanSchedules, hexp]
  · simp [chainScanSchedules, hexp]
  · intro c
    simp [chainScanMark]
  · unfold chainDelay
    nlinarith
  · unfold chainDelay
    nlinarith
  · intro hin hdrag
    constructor <;> simp [triggerBarrelExplosion, hin, hdrag]

/-- Witness for the amended C2 at a flagged in-scene barrel and the
median random draw `u = 1/2` (delay 200 ms). -/
theorem C2_chain_scan_guard_witness :
    chainScanSchedules ⟨"barrel", true, false, true, true⟩ false 3 = false ∧
    chainScanSchedules ⟨"barrel", true, false, true, true⟩ true 3 = false ∧
    (100 : ℚ) ≤ chainDelay (1/2) ∧ chainDelay (1/2) < 300 :=
  have main := C2_chain_scan_guard ⟨"barrel", true, false, true, true⟩ (1/2) 3
    rfl (by norm_num) (by norm_num)
  ⟨main.1, main.2.1, main.2.2.2.1, main.2.2.2.2.1⟩

/-- C3 counterexample: the explosion area-damage pass does not consult
`isDragging` — a dragged wall (health 200) at distance 3 from a
`radius = 8`, `maxDamage = 150` explosion takes the full 93 damage and
ends at health 107, so its state does not remain unchanged. -/
theorem C3_counterexample :
    (⟨"wall", true, true, some 200, some 200⟩ : ExpTarget).isDragging = true ∧
    (explosionDamageTarget 3 8 150
      ⟨"wall", true, true, some 200, some 200⟩).1.health = some 107 := by
  constructor
  · rfl
  · simp [explosionDamageTarget]
    norm_num

/-- C3 amended: the per-tick projectile collision loop of
`checkCollisions` skips dragged targets entirely — a target with
`isDragging = true` is never selected for collision handling (any
selected target has a mesh, is not dragged, and collides) — but the
explosion area-damage pass is not covered by this exemption. -/
theorem C3_dragged_never_selected (collides : CTarget → Bool)
    (ts : List CTarget) (t : CTarget) (hd : t.isDragging = true) :
    selectCollisionTarget collides ts ≠ some t ∧
    (∀ u : CTarget, selectCollisionTarget collides ts = some u →
      u.hasMesh = true ∧ u.isDragging = false ∧ collides u = true) := by
  have hsel : ∀ (l : List CTarget) (u : CTarget),
      selectCollisionTarget collides l = some u →
      u.hasMesh = true ∧ u.isDragging = false ∧ collides u = true := by
    intro l
    induction l with
    | nil =>
      intro u hu
      simp [selectCollisionTarget] at hu
    | cons a as ih =>
      intro u hu
      by_cases hc : (a.hasMesh && !a.isDragging && collides a) = true
      · simp only [selectCollisionTarget, if_pos hc] at hu
        cases hu
        have hc2 := hc
        simp [Bool.and_eq_true] at hc2
        exact ⟨hc2.1.1, hc2.1.2, hc2.2⟩
      · simp only [selectCollisionTarget, if_neg hc] at hu
        exact ih u hu
  refine ⟨?_, hsel ts⟩
  intro heq
  have := (hsel ts t heq).2.1
  rw [hd] at this
  simp at this

/-- Witness for the amended C3: a dragged target is not selected even
when the abstract collision test always reports a hit. -/
theorem C3_dragged_never_selected_witness :
    selectCollisionTarget (fun _ => true) [⟨0, true, true⟩] ≠
      some ⟨0, true, true⟩ :=
  (C3_dragged_never_selected (fun _ => true) [⟨0, true, true⟩]
    ⟨0, true, true⟩ rfl).1

/-- C4 counterexample: the velocity scale is `min(0.1·|v|, 1.5)` with no
lower clamp at 1, so a projectile with base radius `0.4` moving at speed
5 gets effective radius `0.2 < 0.4` — smaller than its base radius, and
different from the spec formula `base × clamp(1 + 0.1·|v|, 1, 1.5)`
(which gives `0.6`). -/
theorem C4_counterexample :
    projectileEffectiveRadius (2/5) (some 5) = 1/5 ∧
    projectileEffectiveRadius (2/5) (some 5) < 2/5 ∧
    specScaledRadius (2/5) 5 = 3/5 ∧
    projectileEffectiveRadius (2/5) (some 5) ≠ specScaledRadius (2/5) 5 := by
  refine ⟨?_, ?_, ?_, ?_⟩ <;>
    · simp [projectileEffectiveRadius, specScaledRadius]
      norm_num

/-- C4 amended: the effective radius is
`base × min(0.1·|v|, 1.5)` when a velocity vector is present (and `base`
when absent); it never exceeds `1.5 × base`, but it has no lower clamp:
for `|v| < 10` it is strictly smaller than the base radius. -/
theorem C4_effective_radius (base s : ℚ) (hb : 0 < base) :
    projectileEffectiveRadius base (some s) = base * min (s * (1/10)) (3/2) ∧
    projectileEffectiveRadius base (some s) ≤ 3/2 * base ∧
    (s < 10 → projectileEffectiveRadius base (some s) < base) ∧
    projectileEffectiveRadius base none = base := by
  refine ⟨rfl, ?_, ?_, by simp [projectileEffectiveRadius]⟩
  · have h1 : min (s * (1/10)) (3/2) ≤ 3/2 := min_le_right _ _
    calc projectileEffectiveRadius base (some s)
        = base * min (s * (1/10)) (3/2) := rfl
      _ ≤ base * (3/2) := by
          exact mul_le_mul_of_nonneg_left h1 (le_of_lt hb)
      _ = 3/2 * base := by ring
  · intro h10
    have h1 : min (s * (1/10)) (3/2) ≤ s * (1/10) := min_le_left _ _
    have h2 : s * (1/10) < 1 := by linarith
    calc projectileEffectiveRadius base (some s)
        = base * min (s * (1/10)) (3/2) := rfl
      _ ≤ base * (s * (1/10)) := mul_le_mul_of_nonneg_left h1 (le_of_lt hb)
      _ < base * 1 := by
          exact mul_lt_mul_of_pos_left h2 hb
      _ = base := by ring

/-- Witness for the amended C4 at `base = 0.4`, `|v| = 5`. -/
theorem C4_effective_radius_witness :
    projectileEffectiveRadius (2/5) (some 5) =
      (2/5 : ℚ) * min (5 * (1/10)) (3/2) ∧
    projectileEffectiveRadius (2/5) (some 5) ≤ 3/2 * (2/5) ∧
    projectileEffectiveRadius (2/5) (some 5) < 2/5 :=
  have main := C4_effective_radius (2/5) 5 (by norm_num)
  ⟨main.1, main.2.1, main.2.2.1 (by norm_num)⟩

/-- C6 counterexample: `checkGroundCollision` passes the raw speed (not
`speed/10`) as `collisionData.force`, so at speed 1 the code classifies
the impact with force `min(1 × 1.5, 2) = 1.5` — enough to fire the dust
effect — whereas the claimed `clamp(1/10 × 1.5, 0, 2) = 0.15` would fire
nothing. -/
theorem C6_counterexample :
    groundImpactForce 1 = 3/2 ∧
    specGroundForce 1 = 3/20 ∧
    groundImpactForce 1 ≠ specGroundForce 1 ∧
    (groundEffects 1 false).1 = true := by
  refine ⟨?_, ?_, ?_, ?_⟩
  · simp [groundImpactForce]
    norm_num
  · simp [specGroundForce]
    norm_num
  · simp [groundImpactForce, specGroundForce]
    norm_num
  · have : ((3 : ℚ)/10) < 1 := by norm_num
    simp [groundEffects, groundImpactForce, this]
    norm_num

/-- C6 amended: when the ground check triggers at raw speed `s` with
bounce count `b`, the classification is
`force = min(s × 1.5, 2.0)` (the raw speed, not `s/10`, is forwarded) and
`final = (b ≥ 3)`; the side effects are gated behind
`s > 0.3 ∨ final`, dust fires iff additionally `force > 0.8`, and a
crater fires iff additionally `force > 1.2 ∨ final` (so the terminal stop
always gets a crater once gated). -/
theorem C6_ground_impact (s : ℚ) (b : ℕ) (hs : 0 ≤ s) :
    groundImpactForce s = min (s * (3/2)) 2 ∧
    0 ≤ groundImpactForce s ∧ groundImpactForce s ≤ 2 ∧
    (isFinalBounce b = true ↔ 3 ≤ b) ∧
    ((groundEffects s (isFinalBounce b)).1 = true ↔
      ((3/10 < s ∨ 3 ≤ b) ∧ 4/5 < groundImpactForce s)) ∧
    ((groundEffects s (isFinalBounce b)).2 = true ↔
      ((3/10 < s ∨ 3 ≤ b) ∧ (6/5 < groundImpactForce s ∨ 3 ≤ b))) := by
  have hfin : isFinalBounce b = true ↔ 3 ≤ b := by
    simp [isFinalBounce]
  refine ⟨rfl, ?_, ?_, hfin, ?_, ?_⟩
  · unfold groundImpactForce
    have : (0 : ℚ) ≤ s * (3/2) := by positivity
    exact le_min this (by norm_num)
  · exact min_le_right _ _
  · unfold groundEffects
    constructor
    · intro hd
      split_ifs at hd with hgate
      · simp only [decide_eq_true_eq] at hd
        rcases hgate with hg | hg
        · exact ⟨Or.inl hg, hd⟩
        · exact ⟨Or.inr (hfin.mp hg), hd⟩
    · rintro ⟨hgate, h4⟩
      have hgate2 : 3/10 < s ∨ isFinalBounce b = true := by
        rcases hgate with hg | hg
        · exact Or.inl hg
        · exact Or.inr (hfin.mpr hg)
      rw [if_pos hgate2]
      simpa using h4
  · unfold groundEffects
    constructor
    · intro hd
      split_ifs at hd with hgate
      · simp only [Bool.or_eq_true, decide_eq_true_eq] at hd
        have hgP : 3/10 < s ∨ 3 ≤ b := by
          rcases hgate with hg | hg
          · exact Or.inl hg
          · exact Or.inr (hfin.mp hg)
        refine ⟨hgP, ?_⟩
        rcases hd with hd | hd
        · exact Or.inl hd
        · exact Or.inr (hfin.mp hd)
    · rintro ⟨hgate, hcr⟩
      have hgate2 : 3/10 < s ∨ isFinalBounce b = true := by
        rcases hgate with hg | hg
        · exact Or.inl hg
        · exact Or.inr (hfin.mpr hg)
      rw [if_pos hgate2]
      simp only [Bool.or_eq_true, decide_eq_true_eq]
      rcases hcr with hc | hc
      · exact Or.inl hc
      · exact Or.inr (hfin.mpr hc)

/-- Witness for the amended C6 at speed 1, bounce count 0. -/
theorem C6_ground_impact_witness :
    groundImpactForce 1 = min ((1 : ℚ) * (3/2)) 2 ∧
    (isFinalBounce 0 = true ↔ 3 ≤ 0) ∧
    ((groundEffects 1 (isFinalBounce 0)).1 = true ↔
      (((3 : ℚ)/10 < 1 ∨ 3 ≤ 0) ∧ 4/5 < groundImpactForce 1)) :=
  have main := C6_ground_impact 1 0 (by norm_num)
  ⟨main.1, main.2.2.2.1, main.2.2.2.2.1⟩

/-- C8: for an active, uncollided projectile, a ground contact
(post-integration `y ≤ 0.3`) with speed `> 1.0` (`normSq > 1`) and
bounce budget left sets `vy = |vy| × 0.5`, scales horizontal velocity by
`0.7`, increments the bounce counter and leaves `active = true`;
otherwise the contact zeroes the velocity, sets `active = false` and
`hasCollided = true` and fires the terminal event; a projectile that is
inactive or already collided is skipped entirely (so the terminal
transition fires exactly once). -/
theorem C8_projectile_bounce_invariant (dt : ℚ) (p : Projectile)
    (hact : p.active = true) (hcol : p.hasCollided = false) :
    (p.pos.y + (p.vel.y + p.gravity * dt) * dt ≤ 3/10 →
      Vec3.normSq ⟨p.vel.x, p.vel.y + p.gravity * dt, p.vel.z⟩ > 1 →
      (p.bounces = 0 ∨ p.bounces < effMaxBounces p) →
      (stepProjectile dt p).1.vel =
        ⟨p.vel.x * (7/10), |p.vel.y + p.gravity * dt| * (1/2),
         p.vel.z * (7/10)⟩ ∧
      (stepProjectile dt p).1.bounces = p.bounces + 1 ∧
      (stepProjectile dt p).1.active = true ∧
      (stepProjectile dt p).1.hasCollided = false ∧
      (stepProjectile dt p).2 = GroundEvent.bounce) ∧
    (p.pos.y + (p.vel.y + p.gravity * dt) * dt ≤ 3/10 →
      ¬ (Vec3.normSq ⟨p.vel.x, p.vel.y + p.gravity * dt, p.vel.z⟩ > 1 ∧
         (p.bounces = 0 ∨ p.bounces < effMaxBounces p)) →
      (stepProjectile dt p).1.vel = ⟨0, 0, 0⟩ ∧
      (stepProjectile dt p).1.active = false ∧
      (stepProjectile dt p).1.hasCollided = true ∧
      (stepProjectile dt p).2 = GroundEvent.finalStop) ∧
    (∀ q : Projectile, q.active = false ∨ q.hasCollided = true →
      stepProjectile dt q = (q, GroundEvent.noEvent)) := by
  refine ⟨?_, ?_, ?_⟩
  · intro hy hsp hb
    simp only [stepProjectile]
    split_ifs <;> simp_all
  · intro hy hnb
    simp only [stepProjectile]
    split_ifs <;> simp_all
  · intro q hq
    simp only [stepProjectile]
    rcases hq with hq | hq <;>
      · rw [if_pos]
        simp [hq]

/-- Witness for C8: a projectile at `y = 1/2` falling at speed 3 (after
gravity `−10` over `dt = 1/10`) contacts the ground and bounces to
velocity `(0, 3/2, 0)` with its counter at 1, staying active. -/
theorem C8_projectile_bounce_invariant_witness :
    (stepProjectile (1/10)
        ⟨⟨0, 1/2, 0⟩, ⟨0, -2, 0⟩, -10, 0, 3, true, false⟩).1.vel =
      ⟨0 * (7/10), |(-2 : ℚ) + (-10) * (1/10)| * (1/2), 0 * (7/10)⟩ ∧
    (stepProjectile (1/10)
        ⟨⟨0, 1/2, 0⟩, ⟨0, -2, 0⟩, -10, 0, 3, true, false⟩).1.bounces = 0 + 1 ∧
    (stepProjectile (1/10)
        ⟨⟨0, 1/2, 0⟩, ⟨0, -2, 0⟩, -10, 0, 3, true, false⟩).1.active = true ∧
    (stepProjectile (1/10)
        ⟨⟨0, 1/2, 0⟩, ⟨0, -2, 0⟩, -10, 0, 3, true, false⟩).1.hasCollided
      = false ∧
    (stepProjectile (1/10)
        ⟨⟨0, 1/2, 0⟩, ⟨0, -2, 0⟩, -10, 0, 3, true, false⟩).2 =
      GroundEvent.bounce :=
  (C8_projectile_bounce_invariant (1/10)
      ⟨⟨0, 1/2, 0⟩, ⟨0, -2, 0⟩, -10, 0, 3, true, false⟩ rfl rfl).1
    (by norm_num)
    (by simp [Vec3.normSq]; norm_num)
    (Or.inl rfl)

/-- C9 counterexample: the freshness gate is a single global timestamp,
so a box is not necessarily recomputed 100 ms after IT was computed.
Compute object 1's box at t = 0, object 2's at t = 90, then request
object 1 at t = 150: the cache returns object 1's box computed at t = 0
(age 150 ≥ 100) unchanged, and does not recompute (state unchanged). -/
theorem C9_counterexample :
    (getBoundingBox computeAt
        ((getBoundingBox computeAt
          ((getBoundingBox computeAt ⟨[], 0⟩ 1 0).2) 2 90).2) 1 150).1 =
      (1, 0) ∧
    (getBoundingBox computeAt
        ((getBoundingBox computeAt
          ((getBoundingBox computeAt ⟨[], 0⟩ 1 0).2) 2 90).2) 1 150).2 =
      ((getBoundingBox computeAt
          ((getBoundingBox computeAt ⟨[], 0⟩ 1 0).2) 2 90).2) ∧
    150 - (1, (0 : ℕ)).2 ≥ 100 := by
  refine ⟨?_, ?_, by norm_num⟩ <;>
    simp [getBoundingBox, insertBox, computeAt, List.lookup, List.filter]

/-- C9 amended: `getBoundingBox` returns the cached box iff the entry
exists and fewer than 100 ms passed since the most recent write to ANY
cache entry (one global `lastCacheUpdate`, not a per-entry stamp);
otherwise it recomputes from world geometry, rewrites the entry and
resets the global timestamp — so a returned cached box may itself have
been computed 100 ms or more before the call. -/
theorem C9_cache_gate (compute : ℕ → ℕ → BBox) (st : CacheState)
    (id now : ℕ) (b : BBox) (hb : List.lookup id st.entries = some b) :
    (now - st.lastCacheUpdate < 100 →
      getBoundingBox compute st id now = (b, st)) ∧
    (100 ≤ now - st.lastCacheUpdate →
      getBoundingBox compute st id now =
        (compute id now,
         ⟨insertBox id (compute id now) st.entries, now⟩)) := by
  constructor
  · intro hfresh
    simp [getBoundingBox, hb, hfresh]
  · intro hstale
    simp [getBoundingBox, hb, Nat.not_lt.mpr hstale]

/-- Witness for the amended C9: a hit on a one-entry cache 50 ms after
the last write returns the cached box and leaves the state alone. -/
theorem C9_cache_gate_witness :
    getBoundingBox computeAt ⟨[(1, (1, 0))], 0⟩ 1 50 =
      ((1, 0), ⟨[(1, (1, 0))], 0⟩) :=
  (C9_cache_gate computeAt ⟨[(1, (1, 0))], 0⟩ 1 50 (1, 0) rfl).1 (by norm_num)

end Siege
